import Mathlib

/-!
Verification development for the `neo-worker` interactive browser agent
(`src/worker.ts`).  The development shallowly embeds the pure logic of the
`NeoInteractiveWorker` class (the v3.2 worker): the in-page DOM scan of
`observeDOM`, the decision function `decideAction`, the response composer
`buildMessage`, the session map manipulations of `interact`, `closeSession`
and `shutdown`.  Browser effects (page creation, navigation, in-page
evaluation, clicks, fills) are suspension points of the asynchronous driver;
they are modelled as an explicit environment recording the outcome of each
such call, so that the orchestration code itself is a total function of the
worker state, the request and that environment.
-/

namespace NeoWorker

/-! ## JS string primitives used by the worker

`worker.ts` relies on a handful of JavaScript string operations:
`toLowerCase`, `includes`, regex `test` with an alternation of literal
words and the `i` flag, `trim`, `slice(0, n)`, `startsWith`.  They are
modelled here over `List Char` / `String`.  Lowercasing covers the ASCII
range and the basic Cyrillic range (the worker's vocabulary is
Bulgarian/English), matching `String.prototype.toLowerCase` on every
character that actually occurs in the program's patterns. -/

/-- JS `toLowerCase` restricted to ASCII letters and the Cyrillic range
`А`..`Я` (U+0410..U+042F, mapped to U+0430..U+044F). -/
def lowerCharJS (c : Char) : Char :=
  if 'A' ≤ c ∧ c ≤ 'Z' then Char.ofNat (c.toNat + 32)
  else if 0x410 ≤ c.toNat ∧ c.toNat ≤ 0x42F then Char.ofNat (c.toNat + 32)
  else c

/-- JS `toLowerCase` on strings. -/
def lowerStr (s : String) : String := String.mk (s.toList.map lowerCharJS)

/-- `pat` occurs as a contiguous subsequence of `s` (JS `String.includes`). -/
def containsSeq (pat : List Char) : List Char → Bool
  | [] => pat.isEmpty
  | c :: t => pat.isPrefixOf (c :: t) || containsSeq pat t

/-- Model of `/p₁|p₂|…/i.test s` where every `pᵢ` is a literal word given
in lowercase: case-insensitive substring search for any alternative. -/
def regexTest (pats : List String) (s : String) : Bool :=
  pats.any (fun p => containsSeq p.toList (lowerStr s).toList)

/-- JS `slice(0, n)` on a string. -/
def strTake (s : String) (n : Nat) : String := String.mk (s.toList.take n)

/-- JS `trim`: strip leading and trailing whitespace. -/
def jsTrim (s : String) : String :=
  String.mk (((s.toList.dropWhile Char.isWhitespace).reverse.dropWhile
    Char.isWhitespace).reverse)

/-! ## DOM model

The in-page script of `observeDOM` runs over the live document.  A DOM
element is modelled by the attributes the script reads: tag name (already
lowercased, as `tagName.toLowerCase()` produces), `id`, the raw `className`
string, `role`, the `type` property, presence of an `href` attribute,
`textContent`, input `value`, `name`, `placeholder`, and the outcome of the
geometry/style visibility test (a rendered fact of the browser, abstracted
as a boolean field). -/

structure Elem where
  tag : String
  id : String := ""
  className : String := ""
  role : String := ""
  typeAttr : String := ""
  hasHref : Bool := false
  textContent : String := ""
  value : String := ""
  name : String := ""
  placeholder : String := ""
  visible : Bool := true
  deriving DecidableEq, Repr

/-- Split a character list at whitespace into (possibly empty) fields. -/
def fieldsAux (cur : List Char) : List Char → List (List Char)
  | [] => [cur.reverse]
  | c :: t => if c.isWhitespace then cur.reverse :: fieldsAux [] t else fieldsAux (c :: cur) t

/-- Whitespace-separated class tokens of a `className` string
(`className.trim().split(/\s+/)` with empty fields dropped). -/
def classTokens (c : String) : List String :=
  ((fieldsAux [] c.toList).map String.mk).filter (fun t => t ≠ "")

/-- First class token, `""` when there is none (covers the JS falsiness
check `el.className && …` together with `cls && …`). -/
def firstClassToken (c : String) : String :=
  match classTokens c with
  | [] => ""
  | t :: _ => t

/-- `getSelector` from `observeDOM`'s in-page script (worker.ts:932-939):
prefer `#id`; else `.firstClassToken` when that token exists and carries no
`:`; else `tag:nth-of-type(index+1)` where `index` is the element's index
in the observation pass. -/
def getSelector (el : Elem) (index : Nat) : String :=
  if el.id ≠ "" then "#" ++ el.id
  else
    let cls := firstClassToken el.className
    if cls ≠ "" ∧ ¬ (cls.toList.contains ':') then "." ++ cls
    else el.tag ++ ":nth-of-type(" ++ toString (index + 1) ++ ")"

/-- The clickable-candidate query of `observeDOM`:
`button, a[href], [role='button'], input[type='submit'], .btn`. -/
def clickQuery (el : Elem) : Bool :=
  el.tag == "button" || (el.tag == "a" && el.hasHref) || el.role == "button" ||
    (el.tag == "input" && el.typeAttr == "submit") || (classTokens el.className).contains "btn"

/-- The form-control query of `observeDOM`:
`input:not([type='hidden']):not([type='submit']), textarea, select`. -/
def inputQuery (el : Elem) : Bool :=
  (el.tag == "input" && el.typeAttr != "hidden" && el.typeAttr != "submit") ||
    el.tag == "textarea" || el.tag == "select"

/-- Button record of a `DOMObservation`. -/
structure ButtonInfo where
  text : String
  selector : String
  deriving DecidableEq, Repr

/-- Input record of a `DOMObservation` (v3.2 shape; `value` is `none` when
the JS value is falsy, mirroring `input.value || undefined`). -/
structure InputInfo where
  type : String
  name : String
  placeholder : String
  selector : String
  value : Option String := none
  deriving DecidableEq, Repr

/-- Button label: `(el.textContent?.trim() || el.value || "").slice(0, 80)`. -/
def buttonText (el : Elem) : String :=
  strTake (if jsTrim el.textContent ≠ "" then jsTrim el.textContent else el.value) 80

/-- One button record, from an element and its index in the pass. -/
def mkButton (index : Nat) (el : Elem) : ButtonInfo :=
  { text := buttonText el, selector := getSelector el index }

/-- The button section of `observeDOM` (worker.ts:941-951): query, filter
visible, cap at 25, map to records, drop blank labels.  The document is
modelled as the node list the query returns, in document order. -/
def observeButtons (doc : List Elem) : List ButtonInfo :=
  ((((doc.filter clickQuery).filter (fun el => el.visible)).take 25).enum.map
      (fun p => mkButton p.1 p.2)).filter (fun b => 0 < b.text.length)

/-- `observeButtons` with each record paired with its source element, for
stating which element a selector was derived from. -/
def observeButtonsEl (doc : List Elem) : List (Elem × ButtonInfo) :=
  ((((doc.filter clickQuery).filter (fun el => el.visible)).take 25).enum.map
      (fun p => (p.2, mkButton p.1 p.2))).filter (fun q => 0 < q.2.text.length)

/-- One input record, from an element and its index in the pass
(worker.ts:959-967); `input.type || "text"`, `input.name || input.id || ""`,
`input.value || undefined`. -/
def mkInput (index : Nat) (el : Elem) : InputInfo :=
  { type := if el.typeAttr ≠ "" then el.typeAttr else "text"
    name := if el.name ≠ "" then el.name else el.id
    placeholder := el.placeholder
    selector := getSelector el index
    value := if el.value ≠ "" then some el.value else none }

/-- The input section of `observeDOM` (worker.ts:954-968): query, filter
visible, cap at 15, map to records. -/
def observeInputs (doc : List Elem) : List InputInfo :=
  (((doc.filter inputQuery).filter (fun el => el.visible)).take 15).enum.map
    (fun p => mkInput p.1 p.2)

/-- `observeInputs` paired with source elements. -/
def observeInputsEl (doc : List Elem) : List (Elem × InputInfo) :=
  (((doc.filter inputQuery).filter (fun el => el.visible)).take 15).enum.map
    (fun p => (p.2, mkInput p.1 p.2))

/-! ## Selector resolution

The snapshot invariant of the spec talks about resolving a recorded
selector against the document at capture time.  The selectors `getSelector`
can emit have three shapes — `#id`, `.class`, `tag:nth-of-type(k)` — and
CSS resolution of each over a flat sibling list is: all elements with that
id, all elements carrying that class token, and the k-th element of that
tag among its siblings. -/

/-- Resolve a selector of one of the three shapes `getSelector` emits
against a flat document.  Unknown shapes resolve to nothing. -/
def resolveSelector (doc : List Elem) (sel : String) : List Elem :=
  match sel.toList with
  | '#' :: rest => doc.filter (fun e => e.id == String.mk rest)
  | '.' :: rest => doc.filter (fun e => (classTokens e.className).contains (String.mk rest))
  | _ =>
    match sel.splitOn ":nth-of-type(" with
    | [tag, rest] =>
      match (rest.dropRight 1).toNat? with
      | some k =>
        match (doc.filter (fun e => e.tag == tag)).drop (k - 1) with
        | [] => []
        | e :: _ => if 1 ≤ k then [e] else []
      | none => []
    | _ => []

/-! ## The two extraction regexes of `decideAction`

`decideAction` (worker.ts:1009-1079) runs two JS regexes over the raw user
message: `/[\w.+-]+@[\w.-]+\.[a-z]{2,}/i` (email) and
`(\d{1,2})[-./](\d{1,2})` (date, separators dot, slash, hyphen), keeping
`match[0]`.  They are modelled as
leftmost-greedy matchers with the backtracking the JS engine performs. -/

/-- JS `\w`: ASCII letters, digits, underscore. -/
def wordCharJS (c : Char) : Bool :=
  ('a' ≤ c && c ≤ 'z') || ('A' ≤ c && c ≤ 'Z') || c.isDigit || c == '_'

/-- The class `[\w.+-]` (local part of the email pattern). -/
def emailLocalChar (c : Char) : Bool := wordCharJS c || c == '.' || c == '+' || c == '-'

/-- The class `[\w.-]` (domain part of the email pattern). -/
def emailDomChar (c : Char) : Bool := wordCharJS c || c == '.' || c == '-'

/-- `[a-z]` under the `i` flag: any ASCII letter. -/
def asciiAlpha (c : Char) : Bool := ('a' ≤ c && c ≤ 'z') || ('A' ≤ c && c ≤ 'Z')

/-- Maximal run of characters satisfying `p`, with the remainder. -/
def takeRun (p : Char → Bool) : List Char → List Char × List Char
  | [] => ([], [])
  | c :: t =>
    if p c then
      let r := takeRun p t
      (c :: r.1, r.2)
    else ([], c :: t)

/-- Backtracking step for `[\w.-]+\.[a-z]{2,}` over the maximal
domain-class run `dom`: try prefix lengths `j, j-1, …, 1`; a length fits
when it is followed inside `dom` by `'.'` and then at least two letters
(the greedy engine keeps the longest fitting prefix).  Returns the chosen
prefix and the greedy letter run. -/
def emailBack (dom : List Char) : Nat → Option (List Char × List Char)
  | 0 => none
  | j + 1 =>
    match dom.drop (j + 1) with
    | '.' :: tail =>
      if 2 ≤ (takeRun asciiAlpha tail).1.length then
        some (dom.take (j + 1), (takeRun asciiAlpha tail).1)
      else emailBack dom j
    | _ => emailBack dom j

/-- Try the email pattern anchored at the head of `cs`. -/
def matchEmailAt (cs : List Char) : Option (List Char) :=
  match takeRun emailLocalChar cs with
  | ([], _) => none
  | (lc :: loc, rest) =>
    match rest with
    | '@' :: rest2 =>
      match emailBack (takeRun emailDomChar rest2).1
          ((takeRun emailDomChar rest2).1.length - 1) with
      | some (pre, run) => some ((lc :: loc) ++ '@' :: (pre ++ '.' :: run))
      | none => none
    | _ => none

/-- Leftmost email match over a character list. -/
def emailScan : List Char → Option (List Char)
  | [] => none
  | c :: t =>
    match matchEmailAt (c :: t) with
    | some m => some m
    | none => emailScan t

/-- `userMessage.match(/[\w.+-]+@[\w.-]+\.[a-z]{2,}/i)?.[0]`. -/
def jsEmailMatch (s : String) : Option String := (emailScan s.toList).map String.mk

/-- Second half of the date pattern: separator then one or two digits
(greedy), given the digits already matched. -/
def dateSep (ds : List Char) (cs : List Char) : Option (List Char) :=
  match cs with
  | s :: rest =>
    if s == '.' || s == '/' || s == '-' then
      match rest with
      | d1 :: rest2 =>
        if d1.isDigit then
          match rest2 with
          | d2 :: _ => if d2.isDigit then some (ds ++ s :: d1 :: [d2]) else some (ds ++ s :: [d1])
          | [] => some (ds ++ s :: [d1])
        else none
      | [] => none
    else none
  | [] => none

/-- Try the date pattern anchored at the head of `cs`:
`\d{1,2}` greedy (two digits first, backtrack to one), separator, `\d{1,2}`. -/
def matchDateAt (cs : List Char) : Option (List Char) :=
  match cs with
  | c1 :: rest =>
    if c1.isDigit then
      match rest with
      | c2 :: rest2 =>
        if c2.isDigit then
          match dateSep (c1 :: [c2]) rest2 with
          | some m => some m
          | none => dateSep [c1] rest
        else dateSep [c1] rest
      | [] => none
    else none
  | [] => none

/-- Leftmost date match over a character list. -/
def dateScan : List Char → Option (List Char)
  | [] => none
  | c :: t =>
    match matchDateAt (c :: t) with
    | some m => some m
    | none => dateScan t

/-- The date-pattern `match[0]` of `userMessage` (separators dot, slash,
hyphen). -/
def jsDateMatch (s : String) : Option String := (dateScan s.toList).map String.mk

/-! ## Snapshot and decision types -/

/-- Link record of a `DOMObservation`. -/
structure LinkInfo where
  text : String
  href : String
  deriving DecidableEq, Repr

/-- `DOMObservation` of the v3.2 worker (worker.ts:629-639). -/
structure DOMObservation where
  url : String
  title : String
  buttons : List ButtonInfo
  inputs : List InputInfo
  links : List LinkInfo
  prices : List String
  visibleText : String
  forms : Nat
  availability_found : Bool
  deriving DecidableEq, Repr

/-- `ActionDecision` as the object literal `decideAction` returns:
an action tag plus optional `target`/`value` and a `reason`. -/
structure ActionDecision where
  action : String
  target : Option String := none
  value : Option String := none
  reason : String
  deriving DecidableEq, Repr

/-- The email-input predicate of `decideAction`'s first rule. -/
def emailInputTest (i : InputInfo) : Bool :=
  i.type == "email" || regexTest ["email", "имейл"] i.name ||
    regexTest ["email", "имейл"] i.placeholder

/-- Email-fill rule of `decideAction` (worker.ts:1020-1027). -/
def emailRule (userMessage : String) (observation : DOMObservation) :
    Option ActionDecision :=
  (jsEmailMatch userMessage).bind fun em =>
    (observation.inputs.find? emailInputTest).map fun emailInput =>
      { action := "fill", target := some emailInput.selector, value := some em
        reason := "Попълване на имейл" }

/-- The date-input predicate of `decideAction`'s second rule. -/
def dateInputTest (i : InputInfo) : Bool :=
  i.type == "date" || regexTest ["date", "дата", "check"] i.name

/-- Date-fill rule of `decideAction` (worker.ts:1030-1037). -/
def dateRule (userMessage : String) (observation : DOMObservation) :
    Option ActionDecision :=
  (jsDateMatch userMessage).bind fun dm =>
    (observation.inputs.find? dateInputTest).map fun dateInput =>
      { action := "fill", target := some dateInput.selector, value := some dm
        reason := "Попълване на дата" }

/-- Common shape of the four keyword-click rules of `decideAction`
(worker.ts:1040-1071): when the message matches the message vocabulary and
some snapshot button matches the button vocabulary, click that button. -/
def clickRule (msgPats btnPats : List String) (msg : String)
    (observation : DOMObservation) : Option ActionDecision :=
  if regexTest msgPats msg then
    (observation.buttons.find? fun b => regexTest btnPats b.text).map fun btn =>
      { action := "click", target := some btn.selector, reason := "Кликване: " ++ btn.text }
  else none

/-- Booking vocabulary (message and button). -/
def bookVocab : List String := ["резерв", "book", "reserve", "запази"]

/-- Availability message vocabulary. -/
def availMsgVocab : List String :=
  ["наличност", "налични", "свободни", "availability", "check", "провери"]

/-- Availability button vocabulary. -/
def availBtnVocab : List String :=
  ["наличност", "налични", "свободни", "availability", "check", "провери", "търси", "search"]

/-- Rooms vocabulary (message and button). -/
def roomsVocab : List String := ["стаи", "rooms", "настаняване", "accommodation"]

/-- Submit vocabulary (message and button). -/
def submitVocab : List String := ["изпрати", "submit", "потвърди", "send"]

/-- Scroll rule of `decideAction` (worker.ts:1074-1076). -/
def scrollRule (msg : String) : Option ActionDecision :=
  if regexTest ["надолу", "повече", "scroll", "more"] msg then
    some { action := "scroll", reason := "Скролване" }
  else none

/-- The default decision (worker.ts:1078). -/
def noneDecision : ActionDecision :=
  { action := "none", reason := "Наблюдение - няма конкретно действие" }

/-- `decideAction` (worker.ts:1009-1079): the ordered cascade
email-fill → date-fill → booking click → availability click → rooms click
→ submit click → scroll → none.  Each rule fires only when both its
message test and its snapshot lookup succeed; the first firing rule wins. -/
def decideAction (userMessage : String) (observation : DOMObservation) : ActionDecision :=
  let msg := lowerStr userMessage
  ((((((emailRule userMessage observation <|> dateRule userMessage observation) <|>
      clickRule bookVocab bookVocab msg observation) <|>
      clickRule availMsgVocab availBtnVocab msg observation) <|>
      clickRule roomsVocab roomsVocab msg observation) <|>
      clickRule submitVocab submitVocab msg observation) <|>
      scrollRule msg).getD noneDecision

/-! ## Response composition -/

/-- The ordered parts list `buildMessage` pushes (worker.ts:1113-1139):
action sentence when an action was taken, page title, up to five button
labels, count of empty inputs when some input is unfilled, up to three
price tokens. -/
def messageParts (actionTaken : String) (o : DOMObservation) : List String :=
  (if actionTaken ≠ "" then [actionTaken ++ "."] else []) ++
  ["Страница: \"" ++ o.title ++ "\"."] ++
  (if 0 < o.buttons.length then
      ["Бутони: " ++ String.intercalate ", "
          ((o.buttons.take 5).map (fun b => "\"" ++ b.text ++ "\"")) ++ "."]
    else []) ++
  (if 0 < o.inputs.length ∧
      0 < (o.inputs.filter (fun i => i.value.getD "" == "")).length then
      ["Полета: " ++ toString (o.inputs.filter (fun i => i.value.getD "" == "")).length ++ "."]
    else []) ++
  (if 0 < o.prices.length then
      ["Цени: " ++ String.intercalate ", " (o.prices.take 3) ++ "."]
    else [])

/-- `buildMessage` (worker.ts:1113-1139); the `userMessage` parameter is
accepted and unused, as in the source. -/
def buildMessage (actionTaken : String) (observation : DOMObservation)
    (userMessage : String) : String :=
  String.intercalate " " (messageParts actionTaken observation)

/-! ## Session map

`NeoInteractiveWorker.sessions : Map<string, SiteSession>` modelled as an
association list keyed by session id. -/

/-- `SiteSession` (worker.ts:653-663); the page handle is owned by the
environment, the session stores the last known URL and activity stamp. -/
structure SiteSession where
  url : String
  lastActivity : Nat
  deriving DecidableEq, Repr

/-- The session map. -/
def Sessions := List (String × SiteSession)

instance : DecidableEq Sessions := by
  unfold Sessions
  infer_instance

/-- `sessions.get(sid)`. -/
def lookupKey (m : Sessions) (sid : String) : Option SiteSession :=
  match m with
  | [] => none
  | (k, v) :: t => if k = sid then some v else lookupKey t sid

/-- `sessions.set(sid, s)` (replace or append). -/
def insertKey (m : Sessions) (sid : String) (s : SiteSession) : Sessions :=
  match m with
  | [] => [(sid, s)]
  | (k, v) :: t => if k = sid then (sid, s) :: t else (k, v) :: insertKey t sid s

/-- `sessions.delete(sid)`: drop the entry keyed `sid` (a `Map` holds at
most one entry per key, so dropping every match is the same operation). -/
def eraseKey (m : Sessions) (sid : String) : Sessions :=
  m.filter (fun kv => kv.1 ≠ sid)

/-! ## Worker state, request, response -/

/-- The fields of `NeoInteractiveWorker` that `interact`, `closeSession`
and `shutdown` read: readiness flag, presence of the browser and context
handles, and the session map. -/
structure WorkerState where
  isReady : Bool
  hasBrowser : Bool
  hasContext : Bool
  sessions : Sessions
  deriving DecidableEq

/-- `InteractRequest` (worker.ts:622-627). -/
structure InteractRequest where
  site_url : String
  user_message : String
  session_id : String
  conversation_history : List (String × String) := []
  deriving DecidableEq

/-- `WorkerResponse` (worker.ts:641-647). -/
structure WorkerResponse where
  success : Bool
  message : String
  observation : Option DOMObservation := none
  action_taken : Option String := none
  logs : List String
  deriving DecidableEq, Repr

/-- A log line `log(tag, msg)` pushes. -/
def mkLog (tag msg : String) : String := "[" ++ tag ++ "] " ++ msg

/-! ## The browser environment

Every awaited driver call inside one `interact` request is a suspension
point whose outcome the worker does not control.  The environment records
those outcomes: page creations and the liveness probe either succeed or
throw; each navigation attempt either succeeds or throws; the in-page DOM
scans either produce an observation or throw; click/fill fallbacks report
overall success (their internals catch every error, worker.ts:1085-1107);
the scroll evaluation and the post-click settle delay may throw. -/

structure PageEnv where
  now : Nat
  newPage1 : Except String Unit
  probe : Except String Unit
  newPage2 : Except String Unit
  gotoRes : Nat → Except String Unit
  urlAfterGotoFail : Nat → String
  waitBetweenNav : Nat → Except String Unit
  pageUrlAfterNav : String
  observe1 : Except String DOMObservation
  clickOk : Bool
  waitAfterClick : Except String Unit
  fillOk : Bool
  scrollRes : Except String Unit
  observe2 : Except String DOMObservation
  pageUrlFinal : String

/-- A pipeline exception: the logs and session map at throw time, and the
error message. -/
def Fail := List String × Sessions × String

/-- `NAV_RETRIES` (worker.ts:616). -/
def NAV_RETRIES : Nat := 2

/-- Loop body of `navigateWithRetry` (worker.ts:706-739), with explicit
fuel counting the remaining attempts.  Each attempt logs, tries `goto`
(success returns `true` after the settle wait, folded into the attempt's
outcome); on error it logs, treats a page left on a non-blank URL as
partial success, and before a further attempt performs the
`waitForTimeout(1000)` pause — which itself may throw and then propagates. -/
def navLoop (env : PageEnv) (url : String) (sessions : Sessions) :
    Nat → Nat → List String → Except Fail (Bool × List String)
  | 0, _, logs => .ok (false, logs)
  | remaining + 1, attempt, logs =>
    let logs := logs ++ ["[OPEN] Navigation attempt " ++ toString attempt ++ " to " ++ url]
    match env.gotoRes attempt with
    | .ok _ => .ok (true, logs ++ ["[OPEN] Navigation successful"])
    | .error e =>
      let logs := logs ++
        ["[RESULT] Navigation error (attempt " ++ toString attempt ++ "): " ++ e]
      let currentUrl := env.urlAfterGotoFail attempt
      if currentUrl ≠ "" ∧ currentUrl ≠ "about:blank" then
        .ok (true, logs ++ ["[OPEN] Page partially loaded: " ++ currentUrl])
      else
        if attempt < NAV_RETRIES then
          match env.waitBetweenNav attempt with
          | .ok _ => navLoop env url sessions remaining (attempt + 1) logs
          | .error e2 => .error (logs, sessions, e2)
        else navLoop env url sessions remaining (attempt + 1) logs

/-- `navigateWithRetry(page, url, logs)`. -/
def navigateWithRetry (env : PageEnv) (url : String) (sessions : Sessions)
    (logs : List String) : Except Fail (Bool × List String) :=
  navLoop env url sessions NAV_RETRIES 1 logs

/-- JS `startsWith`. -/
def jsStartsWith (s p : String) : Bool := p.toList.isPrefixOf s.toList

/-- URL normalization of `interact` (worker.ts:792-795):
`if (targetUrl && !targetUrl.startsWith("http")) targetUrl = "https://" + targetUrl`. -/
def normalizeUrl (u : String) : String :=
  if u ≠ "" ∧ ¬ jsStartsWith u "http" then "https://" ++ u else u

/-- The minimal snapshot substituted when the DOM scan throws
(worker.ts:822-832). -/
def emptyObservation (url : String) : DOMObservation :=
  { url := url, title := "Страница", buttons := [], inputs := [], links := []
    prices := [], visibleText := "", forms := 0, availability_found := false }

/-- The liveness probe of `interact` (worker.ts:781-789):
`await session.page.evaluate(() => true)`; on a throw the page is
recreated (that creation may itself throw) and the map entry replaced. -/
def probeStep (session : SiteSession) (sessions : Sessions) (sid : String)
    (needsNavigation : Bool) (env : PageEnv) (logs : List String) :
    Except Fail (SiteSession × Sessions × Bool × List String) :=
  match env.probe with
  | .ok _ => .ok (session, sessions, needsNavigation, logs)
  | .error _ =>
    let logs := logs ++ [mkLog "OPEN" "Page was closed, creating new one..."]
    match env.newPage2 with
    | .error e => .error (logs, sessions, e)
    | .ok _ =>
      let session : SiteSession := { url := "", lastActivity := env.now }
      .ok (session, insertKey sessions sid session, true, logs)

/-- Step 1 of `interact` (worker.ts:769-789): look the session up,
creating a page for an unseen id, then probe the page and recreate it when
the probe throws.  Field mutations of the stored session object are
written back to the map by the caller on return. -/
def getOrCreateSession (sessions : Sessions) (sid : String) (env : PageEnv)
    (logs : List String) :
    Except Fail (SiteSession × Sessions × Bool × List String) :=
  match lookupKey sessions sid with
  | some session => probeStep session sessions sid false env logs
  | none =>
    let logs := logs ++ [mkLog "OPEN" "Creating new page..."]
    match env.newPage1 with
    | .error e => .error (logs, sessions, e)
    | .ok _ =>
      let session : SiteSession := { url := "", lastActivity := env.now }
      probeStep session (insertKey sessions sid session) sid true env logs

/-- Navigation step of `interact` (worker.ts:797-807): navigate exactly
when the session was (re)created and the normalized URL is non-empty;
a failed retry loop is logged and execution continues; the session URL is
updated to the page's actual URL. -/
def navigateStep (session : SiteSession) (needsNavigation : Bool) (targetUrl : String)
    (env : PageEnv) (sessions : Sessions) (logs : List String) :
    Except Fail (SiteSession × List String) :=
  if needsNavigation ∧ targetUrl ≠ "" then
    let logs := logs ++ [mkLog "OPEN" ("Navigating to " ++ targetUrl)]
    match navigateWithRetry env targetUrl sessions logs with
    | .error f => .error f
    | .ok (navSuccess, logs) =>
      let logs :=
        if navSuccess then logs
        else logs ++ [mkLog "OPEN" "Navigation failed, continuing with current state"]
      .ok ({ session with url := env.pageUrlAfterNav }, logs)
  else .ok (session, logs)

/-- Execution step of `interact` (worker.ts:845-866): realize a click
(settle delay afterwards, whose failure propagates), a fill, or a scroll
(the unguarded `page.evaluate` may throw); JS truthiness of `target` and
`value` is non-emptiness. -/
def executeStep (decision : ActionDecision) (env : PageEnv) (sessions : Sessions)
    (logs : List String) : Except Fail (String × List String) :=
  if decision.action = "click" ∧ decision.target.getD "" ≠ "" then
    let tgt := decision.target.getD ""
    let logs := logs ++ [mkLog "ACT" ("Clicking: " ++ tgt)]
    if env.clickOk then
      let actionTaken := "Кликнах на \"" ++ tgt ++ "\""
      let logs := logs ++ [mkLog "ACT" "Click successful"]
      match env.waitAfterClick with
      | .ok _ => .ok (actionTaken, logs)
      | .error e => .error (logs, sessions, e)
    else .ok ("", logs)
  else if decision.action = "fill" ∧ decision.target.getD "" ≠ "" ∧
      decision.value.getD "" ≠ "" then
    let logs := logs ++ [mkLog "ACT" ("Filling: " ++ decision.target.getD "")]
    if env.fillOk then .ok ("Попълних поле", logs ++ [mkLog "ACT" "Fill successful"])
    else .ok ("", logs)
  else if decision.action = "scroll" then
    let logs := logs ++ [mkLog "ACT" "Scrolling"]
    match env.scrollRes with
    | .ok _ => .ok ("Скролнах надолу", logs)
    | .error e => .error (logs, sessions, e)
  else .ok ("", logs)

/-- The `try` block of `interact` (worker.ts:765-891): resolve session,
navigate if needed, observe (substituting the minimal snapshot when the
scan throws), decide, execute, re-observe after an action (ignoring a
second scan failure), update the session URL, compose the message. -/
def interactGo (w : WorkerState) (req : InteractRequest) (env : PageEnv) :
    Except Fail (WorkerResponse × Sessions) :=
  let logs := [mkLog "OPEN" ("Session: " ++ req.session_id ++ ", URL: " ++ req.site_url)]
  match getOrCreateSession w.sessions req.session_id env logs with
  | .error f => .error f
  | .ok (session, sessions, needsNavigation, logs) =>
    let targetUrl := normalizeUrl req.site_url
    match navigateStep session needsNavigation targetUrl env sessions logs with
    | .error f => .error f
    | .ok (session, logs) =>
      let session := { session with lastActivity := env.now }
      let logs := logs ++ [mkLog "OBSERVE" "Scanning page..."]
      let stage :=
        match env.observe1 with
        | .ok obs =>
          (obs, logs ++ [mkLog "OBSERVE" ("Found: " ++ toString obs.buttons.length ++
            " buttons, " ++ toString obs.inputs.length ++ " inputs")])
        | .error e =>
          (emptyObservation (if session.url ≠ "" then session.url else targetUrl),
            logs ++ [mkLog "OBSERVE" ("Error: " ++ e)])
      let observation := stage.1
      let logs := stage.2 ++
        [mkLog "MATCH" ("User: \"" ++ strTake req.user_message 80 ++ "\"")]
      let decision := decideAction req.user_message observation
      let logs := logs ++
        [mkLog "MATCH" ("Decision: " ++ decision.action ++ " - " ++ decision.reason)]
      match executeStep decision env sessions logs with
      | .error f => .error f
      | .ok (actionTaken, logs) =>
        let finalObservation :=
          if actionTaken ≠ "" then
            match env.observe2 with
            | .ok o => o
            | .error _ => observation
          else observation
        let session := { session with url := env.pageUrlFinal }
        let message := buildMessage actionTaken finalObservation req.user_message
        let logs := logs ++ [mkLog "RESULT" (strTake message 100)]
        .ok ({ success := true, message := message, observation := some finalObservation
               action_taken := if actionTaken ≠ "" then some actionTaken else none
               logs := logs },
          insertKey sessions req.session_id session)

/-- `interact` (worker.ts:745-912): the not-ready early return, the `try`
body, and the `catch` boundary — log the error, dispose the owning
session's page (failure swallowed) and delete its entry, return a generic
failure with the accumulated logs.  Returns the response and the resulting
session map. -/
def interact (w : WorkerState) (req : InteractRequest) (env : PageEnv) :
    WorkerResponse × Sessions :=
  if ¬ w.isReady ∨ ¬ w.hasBrowser ∨ ¬ w.hasContext then
    ({ success := false, message := "Браузърът се стартира. Моля, опитайте отново."
       logs := ["Worker not ready"] }, w.sessions)
  else
    match interactGo w req env with
    | .ok r => r
    | .error (logs, sessions, e) =>
      ({ success := false, message := "Възникна грешка. Моля, опитайте отново."
         logs := logs ++ [mkLog "RESULT" ("Error: " ++ e)] },
        eraseKey sessions req.session_id)

/-! ## Cleanup operations -/

/-- `closeSession(sessionId)` (worker.ts:1154-1160): dispose the page —
`page.close().catch(() => {})`, so either outcome is accepted — and delete
the map entry. -/
def closeSession (sessions : Sessions) (sid : String)
    (closeRes : Except String Unit) : Sessions :=
  match lookupKey sessions sid with
  | some _ =>
    match closeRes with
    | .ok _ => eraseKey sessions sid
    | .error _ => eraseKey sessions sid
  | none => sessions

/-- `shutdown()` (worker.ts:1162-1170): close every session page with the
error swallowed (`catch(() => {})`), clear the map, then close the browser
— the browser close is *not* guarded, so its failure propagates. -/
def shutdown (w : WorkerState) (pageCloseRes : List (Except String Unit))
    (browserCloseRes : Except String Unit) : Except String WorkerState :=
  let _ := pageCloseRes.map (fun r => match r with | .ok _ => () | .error _ => ())
  let w := { w with sessions := ([] : Sessions) }
  if w.hasBrowser then
    match browserCloseRes with
    | .ok _ => .ok w
    | .error e => .error e
  else .ok w

/-! ## Concrete instances used by counterexamples and witnesses -/

/-- A snapshot holding both a close-labeled (modal-close) button and an
email-typed input. -/
def modalObs : DOMObservation :=
  { url := "https://hotel.example", title := "Hotel"
    buttons := [{ text := "Close", selector := ".close-modal" }]
    inputs := [{ type := "email", name := "email", placeholder := "", selector := "#email" }]
    links := [], prices := [], visibleText := "", forms := 1, availability_found := false }

/-- Two visible buttons sharing the class token `btn`: both receive the
selector `.btn`. -/
def twoBtnDoc : List Elem :=
  [{ tag := "button", className := "btn", textContent := "First" },
   { tag := "button", className := "btn", textContent := "Second" }]

/-- A document whose clickable elements carry distinct ids. -/
def idBtnDoc : List Elem :=
  [{ tag := "button", id := "save", textContent := "Save" },
   { tag := "button", id := "cancel", textContent := "Cancel" }]

/-- An observation of a page with one reservation button. -/
def bookObs : DOMObservation :=
  { url := "https://hotel.example", title := "Hotel"
    buttons := [{ text := "Резервирай", selector := "#reserve" }]
    inputs := [], links := [], prices := [], visibleText := "", forms := 0
    availability_found := false }

/-- An environment in which every driver call succeeds, observing
`bookObs`. -/
def envAllOk : PageEnv :=
  { now := 7
    newPage1 := .ok ()
    probe := .ok ()
    newPage2 := .ok ()
    gotoRes := fun _ => .ok ()
    urlAfterGotoFail := fun _ => ""
    waitBetweenNav := fun _ => .ok ()
    pageUrlAfterNav := "https://b.example/"
    observe1 := .ok bookObs
    clickOk := true
    waitAfterClick := .ok ()
    fillOk := true
    scrollRes := .ok ()
    observe2 := .ok bookObs
    pageUrlFinal := "https://a.example/" }

/-- A worker that has started, holding one live session. -/
def liveWorker : WorkerState :=
  { isReady := true, hasBrowser := true, hasContext := true
    sessions := [("s1", { url := "https://a.example/", lastActivity := 0 })] }

/-- A request for the existing session `s1` naming a different site URL. -/
def reqOther : InteractRequest :=
  { site_url := "https://b.example/", user_message := "здравей", session_id := "s1" }

/-- A request for an unseen session id. -/
def reqFresh : InteractRequest :=
  { site_url := "c.example", user_message := "здравей", session_id := "s2" }

/-- The all-success environment with a throwing DOM scan. -/
def envObsFail : PageEnv := { envAllOk with observe1 := Except.error "detached" }

/-- A snapshot with one empty fillable input whose descriptors (declared
type, name, placeholder) are all the word "email" or contain it. -/
def inputsObs : DOMObservation :=
  { url := "https://hotel.example", title := "Hotel", buttons := []
    inputs := [{ type := "email", name := "email", placeholder := "Your email"
                 selector := "#email", value := none }]
    links := [], prices := [], visibleText := "", forms := 1, availability_found := false }

/-! ## Supporting lemmas -/

/-- A conditional singleton is a sublist of the unconditional one. -/
theorem ifSingleSub {α : Type} (c : Prop) [Decidable c] (x : α) :
    List.Sublist (if c then [x] else []) [x] := by
  split
  · exact List.Sublist.refl _
  · exact List.nil_sublist _

/-- `String.mk` of a nonempty character list is a nonempty string. -/
theorem strMk_ne_empty {l : List Char} (h : l ≠ []) : String.mk l ≠ "" := by
  intro he
  apply h
  have := congrArg String.data he
  simpa using this

/-- `matchEmailAt` only returns nonempty matches. -/
theorem matchEmailAt_ne_nil {cs m : List Char} (h : matchEmailAt cs = some m) :
    m ≠ [] := by
  unfold matchEmailAt at h
  split at h
  · exact absurd h (by simp)
  · split at h
    · split at h
      · simp only [Option.some.injEq] at h
        subst h
        simp
      · exact absurd h (by simp)
    · exact absurd h (by simp)

/-- `emailScan` only returns nonempty matches. -/
theorem emailScan_ne_nil : ∀ {cs m : List Char}, emailScan cs = some m → m ≠ [] := by
  intro cs
  induction cs with
  | nil => intro m h; exact absurd h (by simp [emailScan])
  | cons c t ih =>
    intro m h
    rw [emailScan] at h
    split at h
    · simp only [Option.some.injEq] at h
      subst h
      exact matchEmailAt_ne_nil (by assumption)
    · exact ih h

/-- The email extraction never produces the empty string. -/
theorem jsEmailMatch_ne_empty {s v : String} (h : jsEmailMatch s = some v) : v ≠ "" := by
  unfold jsEmailMatch at h
  rcases he : emailScan s.toList with _ | m
  · rw [he] at h; exact absurd h (by simp)
  · rw [he, Option.map_some', Option.some.injEq] at h
    subst h
    exact strMk_ne_empty (emailScan_ne_nil he)

/-- `dateSep` only returns nonempty matches. -/
theorem dateSep_ne_nil {ds cs m : List Char} (h : dateSep ds cs = some m) :
    m ≠ [] := by
  unfold dateSep at h
  split at h
  · split at h
    · split at h
      · split at h
        · split at h
          · split at h
            · simp only [Option.some.injEq] at h; subst h; simp
            · simp only [Option.some.injEq] at h; subst h; simp
          · simp only [Option.some.injEq] at h; subst h; simp
        · exact absurd h (by simp)
      · exact absurd h (by simp)
    · exact absurd h (by simp)
  · exact absurd h (by simp)

/-- `matchDateAt` only returns nonempty matches. -/
theorem matchDateAt_ne_nil {cs m : List Char} (h : matchDateAt cs = some m) :
    m ≠ [] := by
  unfold matchDateAt at h
  split at h
  · split at h
    · split at h
      · split at h
        · split at h
          · simp only [Option.some.injEq] at h
            exact h ▸ dateSep_ne_nil (by assumption)
          · exact dateSep_ne_nil h
        · exact dateSep_ne_nil h
      · exact absurd h (by simp)
    · exact absurd h (by simp)
  · exact absurd h (by simp)

/-- `dateScan` only returns nonempty matches. -/
theorem dateScan_ne_nil : ∀ {cs m : List Char}, dateScan cs = some m → m ≠ [] := by
  intro cs
  induction cs with
  | nil => intro m h; exact absurd h (by simp [dateScan])
  | cons c t ih =>
    intro m h
    rw [dateScan] at h
    split at h
    · simp only [Option.some.injEq] at h
      subst h
      exact matchDateAt_ne_nil (by assumption)
    · exact ih h

/-- The date extraction never produces the empty string. -/
theorem jsDateMatch_ne_empty {s v : String} (h : jsDateMatch s = some v) : v ≠ "" := by
  unfold jsDateMatch at h
  rcases he : dateScan s.toList with _ | m
  · rw [he] at h; exact absurd h (by simp)
  · rw [he, Option.map_some', Option.some.injEq] at h
    subst h
    exact strMk_ne_empty (dateScan_ne_nil he)

/-! ## C8, C9: snapshot boundedness and button-label invariants -/

/-- C8: `observeButtons` caps the list at 25 entries and the entries are a
map of an in-order (index, element) selection from the first 25 visible
clickable candidates; no later candidate can contribute. -/
theorem observeButtons_bounded (doc : List Elem) :
    (observeButtons doc).length ≤ 25 ∧
    ∃ l, List.Sublist l (((doc.filter clickQuery).filter (fun el => el.visible)).take 25).enum ∧
      observeButtons doc = l.map (fun p => mkButton p.1 p.2) := by
  constructor
  · calc (observeButtons doc).length
        ≤ ((((doc.filter clickQuery).filter (fun el => el.visible)).take 25).enum.map
            (fun p => mkButton p.1 p.2)).length := List.length_filter_le _ _
      _ = (((doc.filter clickQuery).filter (fun el => el.visible)).take 25).enum.length := by
            rw [List.length_map]
      _ = (((doc.filter clickQuery).filter (fun el => el.visible)).take 25).length := by
            rw [List.enum_length]
      _ ≤ 25 := List.length_take_le _ _
  · refine ⟨(((doc.filter clickQuery).filter (fun el => el.visible)).take 25).enum.filter
        (fun p => 0 < (mkButton p.1 p.2).text.length), List.filter_sublist _, ?_⟩
    unfold observeButtons
    rw [List.filter_map]
    rfl

/-- C9: every button record in an observation carries a nonempty label of
at most 80 characters. -/
theorem observeButtons_text (doc : List Elem) (b : ButtonInfo)
    (hb : b ∈ observeButtons doc) : b.text ≠ "" ∧ b.text.length ≤ 80 := by
  unfold observeButtons at hb
  rw [List.mem_filter] at hb
  obtain ⟨hmem, hpos⟩ := hb
  rw [List.mem_map] at hmem
  obtain ⟨p, _, hp⟩ := hmem
  constructor
  · intro he
    rw [he] at hpos
    simp at hpos
  · rw [← hp]
    show (mkButton p.1 p.2).text.length ≤ 80
    unfold mkButton buttonText strTake
    show (String.mk _).length ≤ 80
    simpa using List.length_take_le _ _

/-- Witness for C9 at a concrete document. -/
theorem observeButtons_text_witness :
    ({ text := "OK", selector := "button:nth-of-type(1)" } : ButtonInfo).text ≠ "" ∧
    ({ text := "OK", selector := "button:nth-of-type(1)" } : ButtonInfo).text.length ≤ 80 :=
  observeButtons_text [{ tag := "button", textContent := "OK" }]
    { text := "OK", selector := "button:nth-of-type(1)" } (by decide)

/-! ## C5: fixed ordering of the composed message -/

/-- C5 counterexample: on a snapshot with one empty fillable input whose
every descriptor is (or contains) the word "email", the composed message
is exactly the title part followed by the count part `Полета: 1.` — no
input descriptor occurs anywhere in the message, so the claimed "short
list of empty/fillable input descriptors" part does not exist; the code
emits only a count (worker.ts:1127-1132), and no modal-present notice is
produced under any circumstance. -/
theorem buildMessage_counterexample :
    buildMessage "" inputsObs "" = "Страница: \"Hotel\". Полета: 1." ∧
    containsSeq "email".toList (buildMessage "" inputsObs "").toList = false := by
  constructor
  · rfl
  · decide

/-- C5 amended: the composed message is the space-joined parts list, and
that list is an in-order selection (sublist) of the five canonical parts:
action sentence, page title, button labels, a count of empty inputs (not
a list of their descriptors), price tokens.  No part can appear out of
this order, no other part exists, and in particular no modal-present
notice is ever emitted. -/
theorem buildMessage_order (a : String) (o : DOMObservation) (m : String) :
    buildMessage a o m = String.intercalate " " (messageParts a o) ∧
    List.Sublist (messageParts a o)
      [a ++ ".",
       "Страница: \"" ++ o.title ++ "\".",
       "Бутони: " ++ String.intercalate ", "
           ((o.buttons.take 5).map (fun b => "\"" ++ b.text ++ "\"")) ++ ".",
       "Полета: " ++ toString (o.inputs.filter (fun i => i.value.getD "" == "")).length ++ ".",
       "Цени: " ++ String.intercalate ", " (o.prices.take 3) ++ "."] := by
  refine ⟨rfl, ?_⟩
  unfold messageParts
  show List.Sublist _
    (((([a ++ "."] ++ ["Страница: \"" ++ o.title ++ "\"."]) ++ [_]) ++ [_]) ++ [_])
  refine List.Sublist.append ?_ (ifSingleSub _ _)
  refine List.Sublist.append ?_ (ifSingleSub _ _)
  refine List.Sublist.append ?_ (ifSingleSub _ _)
  exact List.Sublist.append (ifSingleSub _ _) (List.Sublist.refl _)

/-! ## C10: well-formedness of every decision -/

/-- A decision is well-formed with respect to the observation it was made
from: a click targets the selector of some observed button; a fill targets
the selector of some observed input and carries a nonempty value; scroll
and none carry neither target nor value, and none carries the
observation-only reason; and the action tag is one of the four. -/
def WfDecision (obs : DOMObservation) (d : ActionDecision) : Prop :=
  (d.action = "click" → ∃ b ∈ obs.buttons, d.target = some b.selector) ∧
  (d.action = "fill" →
    ∃ i ∈ obs.inputs, d.target = some i.selector ∧ ∃ v, d.value = some v ∧ v ≠ "") ∧
  ((d.action = "scroll" ∨ d.action = "none") → d.target = none ∧ d.value = none) ∧
  (d.action = "none" → d.reason = "Наблюдение - няма конкретно действие") ∧
  (d.action = "click" ∨ d.action = "fill" ∨ d.action = "scroll" ∨ d.action = "none")

/-- Decisions produced by the email rule are well-formed. -/
theorem wf_emailRule {m : String} {obs : DOMObservation} {d : ActionDecision}
    (h : emailRule m obs = some d) : WfDecision obs d := by
  unfold emailRule at h
  rcases he : jsEmailMatch m with _ | v
  · rw [he] at h; exact absurd h (by simp)
  · rw [he, Option.some_bind] at h
    rcases hf : obs.inputs.find? emailInputTest with _ | i
    · rw [hf] at h; exact absurd h (by simp)
    · rw [hf, Option.map_some', Option.some.injEq] at h
      subst h
      refine ⟨fun hc => by simp at hc, ?_, fun hc => by simp at hc,
        fun hc => by simp at hc, by right; left; rfl⟩
      intro _
      exact ⟨i, List.mem_of_find?_eq_some hf, rfl, v, rfl, jsEmailMatch_ne_empty he⟩

/-- Decisions produced by the date rule are well-formed. -/
theorem wf_dateRule {m : String} {obs : DOMObservation} {d : ActionDecision}
    (h : dateRule m obs = some d) : WfDecision obs d := by
  unfold dateRule at h
  rcases he : jsDateMatch m with _ | v
  · rw [he] at h; exact absurd h (by simp)
  · rw [he, Option.some_bind] at h
    rcases hf : obs.inputs.find? dateInputTest with _ | i
    · rw [hf] at h; exact absurd h (by simp)
    · rw [hf, Option.map_some', Option.some.injEq] at h
      subst h
      refine ⟨fun hc => by simp at hc, ?_, fun hc => by simp at hc,
        fun hc => by simp at hc, by right; left; rfl⟩
      intro _
      exact ⟨i, List.mem_of_find?_eq_some hf, rfl, v, rfl, jsDateMatch_ne_empty he⟩

/-- Decisions produced by any keyword-click rule are well-formed. -/
theorem wf_clickRule {mp bp : List String} {msg : String} {obs : DOMObservation}
    {d : ActionDecision} (h : clickRule mp bp msg obs = some d) : WfDecision obs d := by
  unfold clickRule at h
  split at h
  · rcases hf : obs.buttons.find? (fun b => regexTest bp b.text) with _ | b
    · rw [hf] at h; exact absurd h (by simp)
    · rw [hf, Option.map_some', Option.some.injEq] at h
      subst h
      refine ⟨?_, fun hc => by simp at hc, fun hc => by simp at hc,
        fun hc => by simp at hc, by left; rfl⟩
      intro _
      exact ⟨b, List.mem_of_find?_eq_some hf, rfl⟩
  · exact absurd h (by simp)

/-- Decisions produced by the scroll rule are well-formed. -/
theorem wf_scrollRule {msg : String} {obs : DOMObservation} {d : ActionDecision}
    (h : scrollRule msg = some d) : WfDecision obs d := by
  unfold scrollRule at h
  split at h
  · simp only [Option.some.injEq] at h
    subst h
    exact ⟨fun hc => by simp at hc, fun hc => by simp at hc, fun _ => ⟨rfl, rfl⟩,
      fun hc => by simp at hc, by right; right; left; rfl⟩
  · exact absurd h (by simp)

/-- The default decision is well-formed. -/
theorem wf_noneDecision (obs : DOMObservation) : WfDecision obs noneDecision :=
  ⟨fun hc => by simp [noneDecision] at hc, fun hc => by simp [noneDecision] at hc,
    fun _ => ⟨rfl, rfl⟩, fun _ => rfl, by right; right; right; rfl⟩

/-- Chain step: a property of all `some`-values survives `<|>`. -/
theorem orElse_someCases {α : Type} (P : α → Prop) {o₁ o₂ : Option α}
    (h₁ : ∀ a, o₁ = some a → P a) (h₂ : ∀ a, o₂ = some a → P a) :
    ∀ a, (o₁ <|> o₂) = some a → P a := by
  intro a
  cases o₁ with
  | none => rw [Option.none_orElse]; exact h₂ a
  | some b =>
    rw [Option.some_orElse, Option.some.injEq]
    intro hb
    exact hb ▸ h₁ b rfl

/-- C10: every decision `decideAction` returns is well-formed for the
observation it was computed from (clicks target an observed button's
selector, fills target an observed input's selector with a nonempty value,
scroll/none carry no target, the default carries the observation-only
reason, and a decision is always one of the four kinds). -/
theorem decideAction_wf (m : String) (obs : DOMObservation) :
    WfDecision obs (decideAction m obs) := by
  unfold decideAction
  show WfDecision obs
    (((((((emailRule m obs <|> dateRule m obs) <|>
        clickRule bookVocab bookVocab (lowerStr m) obs) <|>
        clickRule availMsgVocab availBtnVocab (lowerStr m) obs) <|>
        clickRule roomsVocab roomsVocab (lowerStr m) obs) <|>
        clickRule submitVocab submitVocab (lowerStr m) obs) <|>
        scrollRule (lowerStr m)).getD noneDecision)
  have hchain :
      ∀ a, ((((((emailRule m obs <|> dateRule m obs) <|>
          clickRule bookVocab bookVocab (lowerStr m) obs) <|>
          clickRule availMsgVocab availBtnVocab (lowerStr m) obs) <|>
          clickRule roomsVocab roomsVocab (lowerStr m) obs) <|>
          clickRule submitVocab submitVocab (lowerStr m) obs) <|>
          scrollRule (lowerStr m)) = some a → WfDecision obs a := by
    refine orElse_someCases _ ?_ (fun a h => wf_scrollRule h)
    refine orElse_someCases _ ?_ (fun a h => wf_clickRule h)
    refine orElse_someCases _ ?_ (fun a h => wf_clickRule h)
    refine orElse_someCases _ ?_ (fun a h => wf_clickRule h)
    refine orElse_someCases _ ?_ (fun a h => wf_clickRule h)
    exact orElse_someCases _ (fun a h => wf_emailRule h) (fun a h => wf_dateRule h)
  rcases hc : ((((((emailRule m obs <|> dateRule m obs) <|>
      clickRule bookVocab bookVocab (lowerStr m) obs) <|>
      clickRule availMsgVocab availBtnVocab (lowerStr m) obs) <|>
      clickRule roomsVocab roomsVocab (lowerStr m) obs) <|>
      clickRule submitVocab submitVocab (lowerStr m) obs) <|>
      scrollRule (lowerStr m)) with _ | a
  · exact wf_noneDecision obs
  · exact hchain a hc

/-! ## C3: no modal rule — the email fill wins -/

/-- C3 counterexample: on a snapshot holding both a close-labeled button
and an email-typed input, with the message "Please close this, my email is
a@b.com", `decideAction` returns the email fill, not a click on the
close button — the cascade has no modal rule at all. -/
theorem decideAction_modal_counterexample :
    decideAction "Please close this, my email is a@b.com" modalObs =
      { action := "fill", target := some "#email", value := some "a@b.com"
        reason := "Попълване на имейл" } ∧
    (decideAction "Please close this, my email is a@b.com" modalObs).action ≠ "click" := by
  constructor
  · rfl
  · decide

/-- C3 amended: `decideAction` has no modal-handling rule; whenever the
message contains an email and some snapshot input passes the email-input
test, the decision is the email fill on the first such input — data-fill
is the top of the cascade and outranks every click rule, including any
close-labeled (modal) button. -/
theorem decideAction_emailFirst (m : String) (obs : DOMObservation) (v : String)
    (i : InputInfo) (he : jsEmailMatch m = some v)
    (hf : obs.inputs.find? emailInputTest = some i) :
    decideAction m obs =
      { action := "fill", target := some i.selector, value := some v
        reason := "Попълване на имейл" } := by
  have h1 : emailRule m obs = some
      { action := "fill", target := some i.selector, value := some v
        reason := "Попълване на имейл" } := by
    unfold emailRule
    rw [he, Option.some_bind, hf, Option.map_some']
  unfold decideAction
  show (((((((emailRule m obs <|> dateRule m obs) <|>
      clickRule bookVocab bookVocab (lowerStr m) obs) <|>
      clickRule availMsgVocab availBtnVocab (lowerStr m) obs) <|>
      clickRule roomsVocab roomsVocab (lowerStr m) obs) <|>
      clickRule submitVocab submitVocab (lowerStr m) obs) <|>
      scrollRule (lowerStr m)).getD noneDecision) = _
  rw [h1, Option.some_orElse, Option.some_orElse, Option.some_orElse, Option.some_orElse,
    Option.some_orElse, Option.some_orElse, Option.getD_some]

/-- Witness for C3's amended theorem at the counterexample's inputs. -/
theorem decideAction_emailFirst_witness :
    decideAction "Please close this, my email is a@b.com" modalObs =
      { action := "fill", target := some "#email", value := some "a@b.com"
        reason := "Попълване на имейл" } :=
  decideAction_emailFirst "Please close this, my email is a@b.com" modalObs
    "a@b.com" { type := "email", name := "email", placeholder := "", selector := "#email" }
    (by decide) (by decide)

/-! ## C2: selector resolution -/

/-- Pairs drawn from an `enum` have their second component in the base
list. -/
theorem snd_mem_of_mem_enum {α : Type} {l : List α} {q : Nat × α}
    (h : q ∈ l.enum) : q.2 ∈ l := by
  obtain ⟨i, x⟩ := q
  obtain ⟨-, -, hx⟩ := List.mem_enumFrom h
  exact hx ▸ List.getElem_mem _

/-- Resolving the id selector of an element with a document-unique
nonempty id yields exactly that element. -/
theorem resolve_id_selector (doc : List Elem) (el : Elem) (hel : el ∈ doc)
    (hid : el.id ≠ "")
    (hU : ∀ e ∈ doc, ∀ f ∈ doc, e.id ≠ "" → f.id = e.id → f = e)
    (hN : doc.Nodup) (idx : Nat) :
    resolveSelector doc (getSelector el idx) = [el] := by
  have hsel : getSelector el idx = "#" ++ el.id := by
    unfold getSelector
    rw [if_pos hid]
  rw [hsel]
  show resolveSelector doc ("#" ++ el.id) = [el]
  unfold resolveSelector
  have hlist : ("#" ++ el.id).toList = '#' :: el.id.data := by
    show ("#" ++ el.id).data = '#' :: el.id.data
    rw [String.data_append]
    rfl
  rw [hlist]
  show doc.filter (fun e => e.id == String.mk el.id.data) = [el]
  have hmk : String.mk el.id.data = el.id := rfl
  rw [hmk]
  clear hsel hlist hmk idx
  induction doc with
  | nil => exact absurd hel (by simp)
  | cons a t ih =>
    have haNotT : a ∉ t := (List.nodup_cons.mp hN).1
    have htN : t.Nodup := (List.nodup_cons.mp hN).2
    rcases List.mem_cons.mp hel with hea | het
    · subst hea
      rw [List.filter_cons_of_pos (by simp)]
      have hft : t.filter (fun e => e.id == el.id) = [] := by
        rw [List.filter_eq_nil]
        intro x hx hbeq
        have hxid : x.id = el.id := by simpa using hbeq
        have hxel : x = el := hU el (List.mem_cons_self _ _) x (List.mem_cons_of_mem _ hx) hid hxid
        exact haNotT (hxel ▸ hx)
      rw [hft]
    · have haid : ¬ (a.id == el.id) = true := by
        intro hbeq
        have haeq : a = el :=
          hU el hel a (List.mem_cons_self _ _) hid (by simpa using hbeq)
        exact haNotT (haeq ▸ het)
      have hstep : List.filter (fun e => e.id == el.id) (a :: t) =
          List.filter (fun e => e.id == el.id) t := by
        rw [List.filter_cons, if_neg haid]
      rw [hstep]
      exact ih het
        (fun e he f hf => hU e (List.mem_cons_of_mem _ he) f (List.mem_cons_of_mem _ hf))
        htN

/-- C2 counterexample: on a page with two visible buttons sharing the
class `btn`, both observed records carry the selector `.btn`, which
resolves to two elements — the claimed at-capture-time uniqueness of every
recorded selector is false. -/
theorem selector_unique_counterexample :
    ((observeButtons twoBtnDoc).map (fun b => b.selector) = [".btn", ".btn"]) ∧
    ¬ (∀ b ∈ observeButtons twoBtnDoc,
        (resolveSelector twoBtnDoc b.selector).length = 1) := by
  constructor
  · rfl
  · decide

/-- C2 amended: the uniqueness invariant holds for the id-based selector
branch: in a duplicate-free document whose nonempty ids are unique, every
observed button or input derived from an element with an id gets a
selector resolving to exactly that element.  (Class-token and
nth-of-type fallback selectors do not carry this guarantee.) -/
theorem selector_id_resolves (doc : List Elem)
    (hU : ∀ e ∈ doc, ∀ f ∈ doc, e.id ≠ "" → f.id = e.id → f = e)
    (hN : doc.Nodup) :
    (∀ p ∈ observeButtonsEl doc, p.1.id ≠ "" →
        resolveSelector doc p.2.selector = [p.1]) ∧
    (∀ p ∈ observeInputsEl doc, p.1.id ≠ "" →
        resolveSelector doc p.2.selector = [p.1]) := by
  constructor
  · intro p hp hid
    unfold observeButtonsEl at hp
    obtain ⟨hmem, -⟩ := List.mem_filter.mp hp
    obtain ⟨q, hq, hpq⟩ := List.mem_map.mp hmem
    have hbase : q.2 ∈ ((doc.filter clickQuery).filter (fun el => el.visible)).take 25 :=
      snd_mem_of_mem_enum hq
    have hdoc : q.2 ∈ doc :=
      List.mem_of_mem_filter (List.mem_of_mem_filter (List.mem_of_mem_take hbase))
    have h1 : p.1 = q.2 := by rw [← hpq]
    have h2 : p.2.selector = getSelector q.2 q.1 := by rw [← hpq]; rfl
    rw [h2, h1]
    exact resolve_id_selector doc q.2 hdoc (h1 ▸ hid) hU hN q.1
  · intro p hp hid
    unfold observeInputsEl at hp
    obtain ⟨q, hq, hpq⟩ := List.mem_map.mp hp
    have hbase : q.2 ∈ ((doc.filter inputQuery).filter (fun el => el.visible)).take 15 :=
      snd_mem_of_mem_enum hq
    have hdoc : q.2 ∈ doc :=
      List.mem_of_mem_filter (List.mem_of_mem_filter (List.mem_of_mem_take hbase))
    have h1 : p.1 = q.2 := by rw [← hpq]
    have h2 : p.2.selector = getSelector q.2 q.1 := by rw [← hpq]; rfl
    rw [h2, h1]
    exact resolve_id_selector doc q.2 hdoc (h1 ▸ hid) hU hN q.1

/-- Witness for C2's amended theorem on a concrete two-button document
with distinct ids. -/
theorem selector_id_resolves_witness :
    (∀ p ∈ observeButtonsEl idBtnDoc, p.1.id ≠ "" →
        resolveSelector idBtnDoc p.2.selector = [p.1]) ∧
    (∀ p ∈ observeInputsEl idBtnDoc, p.1.id ≠ "" →
        resolveSelector idBtnDoc p.2.selector = [p.1]) :=
  selector_id_resolves idBtnDoc (by decide) (by decide)

/-! ## Session-map and orchestration lemmas -/

/-- After erasing a key it no longer resolves. -/
theorem lookupKey_eraseKey (m : Sessions) (sid : String) :
    lookupKey (eraseKey m sid) sid = none := by
  induction m with
  | nil => rfl
  | cons kv t ih =>
    unfold eraseKey at ih ⊢
    rw [List.filter_cons]
    by_cases hk : kv.1 = sid
    · rw [if_neg (by simpa using hk)]
      exact ih
    · rw [if_pos (by simpa using hk)]
      unfold lookupKey
      rw [if_neg hk]
      exact ih

/-- A successful probe leaves the resolved session untouched. -/
theorem probeStep_ok {session : SiteSession} {sessions : Sessions} {sid : String}
    {needsNavigation : Bool} {env : PageEnv} {logs : List String}
    (hp : env.probe = Except.ok ()) :
    probeStep session sessions sid needsNavigation env logs =
      Except.ok (session, sessions, needsNavigation, logs) := by
  unfold probeStep
  rw [hp]

/-- Resolving an existing session performs only the probe. -/
theorem getOrCreateSession_found {sessions : Sessions} {sid : String} {env : PageEnv}
    {logs : List String} {s : SiteSession} (hs : lookupKey sessions sid = some s)
    (hp : env.probe = Except.ok ()) :
    getOrCreateSession sessions sid env logs = Except.ok (s, sessions, false, logs) := by
  unfold getOrCreateSession
  rw [hs]
  exact probeStep_ok hp

/-! ## C4: an existing live session never re-navigates -/

/-- C4 counterexample: worker with a live session on
`https://a.example/`; a second request for the same session id naming the
different URL `https://b.example/` completes successfully without any
navigation log entry — a changed `site_url` does not trigger navigation. -/
theorem navigation_counterexample :
    lookupKey liveWorker.sessions "s1" =
      some { url := "https://a.example/", lastActivity := 0 } ∧
    normalizeUrl reqOther.site_url = "https://b.example/" ∧
    (interact liveWorker reqOther envAllOk).1.success = true ∧
    ((interact liveWorker reqOther envAllOk).1.logs.contains
      (mkLog "OPEN" "Navigating to https://b.example/")) = false := by
  refine ⟨rfl, rfl, rfl, ?_⟩
  decide

/-- C4 amended: for a session that
exists and whose page passes the liveness probe, the whole interaction is
independent of every navigation outcome (navigation attempts, their
intermediate URLs, the inter-attempt waits, the post-navigation URL):
`interact` neither navigates on an unchanged `site_url` nor on a changed
one; navigation happens only for a newly created or recreated page. -/
theorem interact_no_renav (w : WorkerState) (req : InteractRequest) (env : PageEnv)
    (g : Nat → Except String Unit) (u : Nat → String) (wb : Nat → Except String Unit)
    (p : String) (s : SiteSession)
    (hs : lookupKey w.sessions req.session_id = some s)
    (hp : env.probe = Except.ok ()) :
    interact w req
      { env with gotoRes := g, urlAfterGotoFail := u, waitBetweenNav := wb,
                 pageUrlAfterNav := p } =
      interact w req env := by
  have hp2 : ({ env with gotoRes := g, urlAfterGotoFail := u, waitBetweenNav := wb, pageUrlAfterNav := p } : PageEnv).probe = Except.ok () := hp
  have hgo : interactGo w req
      { env with gotoRes := g, urlAfterGotoFail := u, waitBetweenNav := wb,
                 pageUrlAfterNav := p } = interactGo w req env := by
    simp only [interactGo, getOrCreateSession_found hs hp2, getOrCreateSession_found hs hp,
      navigateStep]
    simp
    rfl
  unfold interact
  rw [hgo]

/-- Witness for C4's amended theorem: with every navigation outcome
replaced by a failing one, the interaction for the existing live session
is unchanged. -/
theorem interact_no_renav_witness :
    interact liveWorker reqOther
      { envAllOk with gotoRes := fun _ => Except.error "net down",
                      urlAfterGotoFail := fun _ => "",
                      waitBetweenNav := fun _ => Except.error "net down",
                      pageUrlAfterNav := "https://elsewhere.example/" } =
      interact liveWorker reqOther envAllOk :=
  interact_no_renav liveWorker reqOther envAllOk (fun _ => Except.error "net down")
    (fun _ => "") (fun _ => Except.error "net down") "https://elsewhere.example/"
    { url := "https://a.example/", lastActivity := 0 } rfl rfl

/-! ## C1: the orchestrator's exception boundary -/

/-- C1: on a started worker, whenever the request pipeline throws at any
stage, `interact` returns (rather than propagates): the response has
`success = false`, the generic failure message, and the logs accumulated
up to the throw plus the error log line; the owning session's entry is
removed from the session map.  (`interact` is a total function of the
worker, the request and the environment, so no exception ever reaches the
caller, including when the session's page was externally closed.) -/
theorem interact_exception_boundary (w : WorkerState) (req : InteractRequest)
    (env : PageEnv) (f : Fail)
    (hready : w.isReady = true) (hbr : w.hasBrowser = true) (hct : w.hasContext = true)
    (hthrow : interactGo w req env = Except.error f) :
    (interact w req env).1.success = false ∧
    (interact w req env).1.message = "Възникна грешка. Моля, опитайте отново." ∧
    (interact w req env).1.logs = f.1 ++ [mkLog "RESULT" ("Error: " ++ f.2.2)] ∧
    (interact w req env).2 = eraseKey f.2.1 req.session_id ∧
    lookupKey (interact w req env).2 req.session_id = none := by
  obtain ⟨logs, sessions, e⟩ := f
  have hif : (¬ w.isReady ∨ ¬ w.hasBrowser ∨ ¬ w.hasContext) = False := by
    simp [hready, hbr, hct]
  unfold interact
  rw [hthrow]
  simp only [hif, if_false]
  exact ⟨trivial, trivial, trivial, trivial, lookupKey_eraseKey sessions req.session_id⟩

/-- Witness for C1: a fresh session whose page creation throws. -/
theorem interact_exception_boundary_witness :
    (interact liveWorker reqFresh { envAllOk with newPage1 := Except.error "boom" }).1.success
        = false ∧
    (interact liveWorker reqFresh { envAllOk with newPage1 := Except.error "boom" }).1.message
        = "Възникна грешка. Моля, опитайте отново." ∧
    (interact liveWorker reqFresh { envAllOk with newPage1 := Except.error "boom" }).1.logs =
      [mkLog "OPEN" "Session: s2, URL: c.example", mkLog "OPEN" "Creating new page..."] ++
        [mkLog "RESULT" ("Error: " ++ "boom")] ∧
    (interact liveWorker reqFresh { envAllOk with newPage1 := Except.error "boom" }).2 =
      eraseKey liveWorker.sessions "s2" ∧
    lookupKey (interact liveWorker reqFresh
        { envAllOk with newPage1 := Except.error "boom" }).2 "s2" = none :=
  interact_exception_boundary liveWorker reqFresh
    { envAllOk with newPage1 := Except.error "boom" }
    ([mkLog "OPEN" "Session: s2, URL: c.example", mkLog "OPEN" "Creating new page..."],
      liveWorker.sessions, "boom")
    rfl rfl rfl rfl

/-! ## C7: cleanup operations -/

/-- C7 counterexample: with a live browser, a failing page disposal is
swallowed but a failing browser disposal propagates out of `shutdown` —
"never raise" is false for `shutdown`. -/
theorem shutdown_counterexample :
    shutdown liveWorker [Except.error "page already closed"]
      (Except.error "browser crashed") = Except.error "browser crashed" := rfl

/-- C7 amended: `closeSession` ignores the page-disposal outcome and
always removes the entry (it never raises); `shutdown` likewise ignores
every page-disposal outcome and clears the map, and completes cleanly when
the browser close succeeds — but a browser-close error is the one
disposal failure it propagates. -/
theorem cleanup_amended :
    (∀ (m : Sessions) (sid : String) (r : Except String Unit),
      closeSession m sid r = closeSession m sid (Except.ok ()) ∧
      lookupKey (closeSession m sid r) sid = none) ∧
    (∀ (w : WorkerState) (pcs pcs' : List (Except String Unit)) (bc : Except String Unit),
      shutdown w pcs bc = shutdown w pcs' bc) ∧
    (∀ (w : WorkerState) (pcs : List (Except String Unit)),
      shutdown w pcs (Except.ok ()) = Except.ok { w with sessions := ([] : Sessions) }) := by
  refine ⟨?_, ?_, ?_⟩
  · intro m sid r
    constructor
    · unfold closeSession
      cases lookupKey m sid with
      | none => rfl
      | some s => cases r <;> rfl
    · unfold closeSession
      cases hl : lookupKey m sid with
      | none => exact hl
      | some s => cases r <;> exact lookupKey_eraseKey m sid
  · intro w pcs pcs' bc
    rfl
  · intro w pcs
    unfold shutdown
    cases hb : w.hasBrowser <;> simp [hb]

/-! ## C6: observation failure is recovered locally -/

/-- The email rule cannot fire on the minimal empty snapshot. -/
theorem emailRule_empty (m u : String) : emailRule m (emptyObservation u) = none := by
  unfold emailRule emptyObservation
  cases jsEmailMatch m <;> simp

/-- The date rule cannot fire on the minimal empty snapshot. -/
theorem dateRule_empty (m u : String) : dateRule m (emptyObservation u) = none := by
  unfold dateRule emptyObservation
  cases jsDateMatch m <;> simp

/-- No click rule can fire on the minimal empty snapshot. -/
theorem clickRule_empty (mp bp : List String) (msg u : String) :
    clickRule mp bp msg (emptyObservation u) = none := by
  unfold clickRule emptyObservation
  split <;> simp

/-- On the minimal empty snapshot the decision is scroll or the default. -/
theorem decideAction_empty (m u : String) :
    decideAction m (emptyObservation u) =
      { action := "scroll", target := none, value := none, reason := "Скролване" } ∨
    decideAction m (emptyObservation u) = noneDecision := by
  unfold decideAction
  show ((((((emailRule m (emptyObservation u) <|> dateRule m (emptyObservation u)) <|>
      clickRule bookVocab bookVocab (lowerStr m) (emptyObservation u)) <|>
      clickRule availMsgVocab availBtnVocab (lowerStr m) (emptyObservation u)) <|>
      clickRule roomsVocab roomsVocab (lowerStr m) (emptyObservation u)) <|>
      clickRule submitVocab submitVocab (lowerStr m) (emptyObservation u)) <|>
      scrollRule (lowerStr m)).getD noneDecision = _ ∨
    ((((((emailRule m (emptyObservation u) <|> dateRule m (emptyObservation u)) <|>
      clickRule bookVocab bookVocab (lowerStr m) (emptyObservation u)) <|>
      clickRule availMsgVocab availBtnVocab (lowerStr m) (emptyObservation u)) <|>
      clickRule roomsVocab roomsVocab (lowerStr m) (emptyObservation u)) <|>
      clickRule submitVocab submitVocab (lowerStr m) (emptyObservation u)) <|>
      scrollRule (lowerStr m)).getD noneDecision = noneDecision
  rw [emailRule_empty, dateRule_empty, clickRule_empty, clickRule_empty, clickRule_empty,
    clickRule_empty, Option.none_orElse, Option.none_orElse, Option.none_orElse,
    Option.none_orElse, Option.none_orElse, Option.none_orElse]
  rcases hsr : scrollRule (lowerStr m) with _ | d
  · right; rfl
  · unfold scrollRule at hsr
    split at hsr
    · simp only [Option.some.injEq] at hsr
      subst hsr
      left; rfl
    · exact absurd hsr (by simp)

/-- When no navigation is needed the navigation step is the identity. -/
theorem navigateStep_skip (session : SiteSession) (targetUrl : String) (env : PageEnv)
    (sessions : Sessions) (logs : List String) :
    navigateStep session false targetUrl env sessions logs = Except.ok (session, logs) := by
  unfold navigateStep
  rw [if_neg (by simp)]

/-- C6: when the DOM scan throws (and no other stage does), `interact`
still returns a successful response built over the substituted minimal
empty snapshot: `success = true`, an observation is present, and when the
decision on the empty snapshot is the default none, the returned
observation is exactly the minimal empty snapshot (known URL, placeholder
title, empty lists, zero counts). -/
theorem interact_observe_recovery (w : WorkerState) (req : InteractRequest) (env : PageEnv)
    (s : SiteSession) (e : String)
    (hready : w.isReady = true) (hbr : w.hasBrowser = true) (hct : w.hasContext = true)
    (hs : lookupKey w.sessions req.session_id = some s)
    (hp : env.probe = Except.ok ())
    (hobs : env.observe1 = Except.error e)
    (hscroll : env.scrollRes = Except.ok ()) :
    (interact w req env).1.success = true ∧
    ((interact w req env).1.observation).isSome = true ∧
    (decideAction req.user_message
        (emptyObservation (if s.url ≠ "" then s.url else normalizeUrl req.site_url)) =
          noneDecision →
      (interact w req env).1.observation =
        some (emptyObservation (if s.url ≠ "" then s.url else normalizeUrl req.site_url))) := by
  have hne : (¬ w.isReady ∨ ¬ w.hasBrowser ∨ ¬ w.hasContext) = False := by
    simp [hready, hbr, hct]
  rcases decideAction_empty req.user_message
      (if s.url ≠ "" then s.url else normalizeUrl req.site_url) with hdec | hdec
  all_goals unfold interact
  all_goals simp only [hne, if_false, interactGo, getOrCreateSession_found hs hp,
    navigateStep_skip, hobs, hdec, executeStep, noneDecision, hscroll]
  · rcases ho2 : env.observe2 with e2 | o <;> simp [ho2, hdec, noneDecision]
  · simp

/-- Witness for C6 on a live session with a throwing scan. -/
theorem interact_observe_recovery_witness :
    (interact liveWorker reqOther envObsFail).1.success = true ∧
    ((interact liveWorker reqOther envObsFail).1.observation).isSome = true ∧
    (decideAction reqOther.user_message
        (emptyObservation
          (if ({ url := "https://a.example/", lastActivity := 0 } : SiteSession).url ≠ ""
            then ({ url := "https://a.example/", lastActivity := 0 } : SiteSession).url
            else normalizeUrl reqOther.site_url)) = noneDecision →
      (interact liveWorker reqOther envObsFail).1.observation =
        some (emptyObservation
          (if ({ url := "https://a.example/", lastActivity := 0 } : SiteSession).url ≠ ""
            then ({ url := "https://a.example/", lastActivity := 0 } : SiteSession).url
            else normalizeUrl reqOther.site_url))) :=
  interact_observe_recovery liveWorker reqOther envObsFail
    { url := "https://a.example/", lastActivity := 0 } "detached" rfl rfl rfl rfl rfl rfl rfl

end NeoWorker
